import Mathlib

/-!
Verification development for the Landing Zone Accelerator stack utilities and
ASEA resource import logic.  The definitions below are shallow embeddings of
 `lib/asea-resources/transit-gateways.ts` and `utils/stack-utils.ts`; theorems
about them follow after the definitions.
-/

namespace LZA

/-- Log levels used by `ImportAseaResourcesStack.addLogs`. -/
inductive LogLevel where
  | INFO
  | WARN
  | ERROR
deriving DecidableEq, Repr

/-- The six CloudFormation properties of an `AWS::EC2::TransitGateway`
construct that the reconciliation mutates (`CfnTransitGateway` fields).
Each is optional because a construct property may be unset. -/
structure TgwCfnProps where
  amazonSideAsn : Option Nat
  autoAcceptSharedAttachments : Option String
  defaultRouteTableAssociation : Option String
  defaultRouteTablePropagation : Option String
  dnsSupport : Option String
  vpnEcmpSupport : Option String
deriving DecidableEq, Repr

/-- An existing CloudFormation resource record from the ASEA stack's resource
list (`stackInfo.resources`): logical id, physical id (the construct `ref`),
CloudFormation type, the resource tags, and the transit-gateway-relevant
properties of the backing construct. -/
structure CfnResource where
  logicalResourceId : String
  physicalResourceId : String
  resourceType : String
  tags : List (String × String)
  properties : TgwCfnProps
deriving DecidableEq, Repr

/-- An ASEA stack entry of the template map (`stackInfo` /
`aseaStackMap` element): account, region, deployment phase, stack name,
whether it is a nested stack, and its resource list. -/
structure AseaStackInfo where
  accountId : String
  region : String
  phase : Int
  stackName : String
  nestedStack : Bool
  resources : List CfnResource
deriving DecidableEq, Repr

/-- A transit gateway item of the declarative network configuration
(`networkConfig.transitGateways` element, `TransitGatewayConfig`). -/
structure TransitGatewayConfig where
  name : String
  asn : Nat
  autoAcceptSharingAttachments : String
  defaultRouteTableAssociation : String
  defaultRouteTablePropagation : String
  dnsSupport : String
  vpnEcmpSupport : String
deriving DecidableEq, Repr

/-- The slice of the network configuration used by `TransitGateways`;
`transitGateways` is optional, matching `networkConfig.transitGateways ?? []`. -/
structure NetworkConfig where
  transitGateways : Option (List TransitGatewayConfig)
deriving DecidableEq, Repr

/-- An SSM parameter recorded through `scope.addSsmParameter`. -/
structure SsmParameter where
  logicalId : String
  parameterName : String
  stringValue : String
deriving DecidableEq, Repr

/-- `RESOURCE_TYPE.TRANSIT_GATEWAY` from `transit-gateways.ts`. -/
def RESOURCE_TYPE_TRANSIT_GATEWAY : String := "AWS::EC2::TransitGateway"

/-- `ASEA_PHASE_NUMBER` from `transit-gateways.ts`. -/
def ASEA_PHASE_NUMBER : Int := 0

/-- Modelled from the spec: `AseaResourceType.TRANSIT_GATEWAY` of the config
package is not under `src/`; the mapping-entry kind string for transit
gateways. Claims depend only on it being the transit-gateway kind. -/
def aseaResourceTypeTransitGateway : String := "ec2:transitGateway"

/-- Modelled from the spec: `AseaResource.filterResourcesByType`
(`asea-resources/resource.ts` is not under `src/`). Per the spec's
"matching existing CloudFormation resources ... against a target declarative
configuration", it keeps the resources of the requested CloudFormation type. -/
def filterResourcesByType (resources : List CfnResource) (resourceType : String) :
    List CfnResource :=
  resources.filter (fun r => r.resourceType == resourceType)

/-- Modelled from the spec: `AseaResource.findResourceByTag`
(`asea-resources/resource.ts` is not under `src/`). Per the spec's
"matches them to declarative network/security configuration by name or tag",
it returns the first resource carrying a `Name` tag equal to the requested
name. -/
def findResourceByTag (resources : List CfnResource) (name : String) :
    Option CfnResource :=
  resources.find? (fun r => r.tags.contains ("Name", name))

/-- Modelled from the spec: `ImportAseaResourcesStack.getResource` followed by
reading the construct's `ref` (the stack class is not under `src/`). The `ref`
of the CDK construct registered at a logical id is the physical resource id of
the stack resource with that logical id. -/
def constructRef (resources : List CfnResource) (logicalId : String) : String :=
  ((resources.find? (fun r => r.logicalResourceId == logicalId)).map
    (fun r => r.physicalResourceId)).getD ""

/-- Model of the external `pascal-case` npm package (not part of this
repository): capitalises the first character. No claim depends on the exact
logical-id text, only on which parameters are emitted. -/
def pascalCase (s : String) : String := s.capitalize

/-- Modelled from the spec: `scope.getSsmPath(SsmResourceType.TGW, [name])`
(the `SsmResourceType` table is not under `src/`). Per the spec's "emits SSM
parameters recording the resulting physical resource IDs", it builds the
parameter path for a transit gateway from the SSM prefix and the declared
name. -/
def getTgwSsmPath (ssmPrefix name : String) : String :=
  ssmPrefix ++ "/network/transitGateways/" ++ name ++ "/id"

/-- The transit gateway construct properties after the reconciliation assigns
the six declared configuration values (`transit-gateways.ts` lines 36-41). -/
def tgwPropsOfConfig (item : TransitGatewayConfig) : TgwCfnProps :=
  { amazonSideAsn := some item.asn
    autoAcceptSharedAttachments := some item.autoAcceptSharingAttachments
    defaultRouteTableAssociation := some item.defaultRouteTableAssociation
    defaultRouteTablePropagation := some item.defaultRouteTablePropagation
    dnsSupport := some item.dnsSupport
    vpnEcmpSupport := some item.vpnEcmpSupport }

/-- The SSM parameter emitted for a matched transit gateway item
(`transit-gateways.ts` lines 42-46): logical id from `pascalCase`, parameter
name from `getSsmPath`, and value the `ref` of the construct fetched with
`getResource(tgwResource.logicalResourceId)`. -/
def mkTgwSsmParameter (ssmPrefix : String) (item : TransitGatewayConfig)
    (resources : List CfnResource) (tgwResource : CfnResource) : SsmParameter :=
  { logicalId := pascalCase ("SsmParam" ++ item.name ++ "TransitGatewayId")
    parameterName := getTgwSsmPath ssmPrefix item.name
    stringValue := constructRef resources tgwResource.logicalResourceId }

/-- The observable effects of running the `TransitGateways` constructor:
construct mutations keyed by logical resource id, emitted SSM parameters,
recorded ASEA resource mapping entries, the `tgwInAsea` list of matched
logical ids, and log lines. -/
structure TransitGatewaysResult where
  mutations : List (String × TgwCfnProps)
  ssmParameters : List SsmParameter
  aseaResources : List (String × String)
  tgwInAsea : List String
  logs : List (LogLevel × String)
deriving DecidableEq, Repr

/-- The empty effect record, the state before the configuration loop. -/
def TransitGatewaysResult.empty : TransitGatewaysResult :=
  { mutations := [], ssmParameters := [], aseaResources := [], tgwInAsea := [], logs := [] }

/-- One iteration of the `for (const tgwItem of ...)` loop of
`transit-gateways.ts` (lines 32-49): look the item up by tag; on a match,
record the construct mutation, the SSM parameter, the ASEA mapping entry and
the matched logical id; otherwise `continue`. -/
def tgwLoopStep (ssmPrefix : String) (resources existing : List CfnResource)
    (acc : TransitGatewaysResult) (tgwItem : TransitGatewayConfig) :
    TransitGatewaysResult :=
  match findResourceByTag existing tgwItem.name with
  | none => acc
  | some tgwResource =>
    { acc with
      mutations := acc.mutations ++ [(tgwResource.logicalResourceId, tgwPropsOfConfig tgwItem)]
      ssmParameters := acc.ssmParameters ++ [mkTgwSsmParameter ssmPrefix tgwItem resources tgwResource]
      aseaResources := acc.aseaResources ++ [(aseaResourceTypeTransitGateway, tgwItem.name)]
      tgwInAsea := acc.tgwInAsea ++ [tgwResource.logicalResourceId] }

/-- The `TransitGateways` constructor of `transit-gateways.ts`: nothing but an
INFO log when the stack's phase is not 0; otherwise the configuration loop over
`networkConfig.transitGateways ?? []` followed by the orphan scan that logs
every existing transit gateway whose logical id was not matched. -/
def transitGatewaysRun (stackInfo : AseaStackInfo) (networkConfig : NetworkConfig)
    (ssmPrefix : String) : TransitGatewaysResult :=
  if stackInfo.phase ≠ ASEA_PHASE_NUMBER then
    { TransitGatewaysResult.empty with
      logs := [(LogLevel.INFO,
        "No " ++ RESOURCE_TYPE_TRANSIT_GATEWAY ++ "s to handle in stack " ++ stackInfo.stackName)] }
  else
    let existing := filterResourcesByType stackInfo.resources RESOURCE_TYPE_TRANSIT_GATEWAY
    let afterLoop := (networkConfig.transitGateways.getD []).foldl
      (tgwLoopStep ssmPrefix stackInfo.resources existing) TransitGatewaysResult.empty
    { afterLoop with
      logs := afterLoop.logs ++
        ((existing.filter (fun r => !afterLoop.tgwInAsea.contains r.logicalResourceId)).map
          (fun r => (LogLevel.INFO,
            "TGW " ++ r.logicalResourceId ++ " is in ASEA Cfn but not found in configuration"))) }

/-- Per-item construct mutations: what one loop iteration appends to
`mutations`. -/
def tgwItemMutations (existing : List CfnResource) (item : TransitGatewayConfig) :
    List (String × TgwCfnProps) :=
  match findResourceByTag existing item.name with
  | none => []
  | some r => [(r.logicalResourceId, tgwPropsOfConfig item)]

/-- Per-item SSM parameters: what one loop iteration appends to
`ssmParameters`. -/
def tgwItemSsm (ssmPrefix : String) (resources existing : List CfnResource)
    (item : TransitGatewayConfig) : List SsmParameter :=
  match findResourceByTag existing item.name with
  | none => []
  | some r => [mkTgwSsmParameter ssmPrefix item resources r]

/-- Per-item ASEA mapping entries: what one loop iteration appends to
`aseaResources`. -/
def tgwItemAsea (existing : List CfnResource) (item : TransitGatewayConfig) :
    List (String × String) :=
  match findResourceByTag existing item.name with
  | none => []
  | some _ => [(aseaResourceTypeTransitGateway, item.name)]

/-- Per-item matched logical ids: what one loop iteration appends to
`tgwInAsea`. -/
def tgwItemIds (existing : List CfnResource) (item : TransitGatewayConfig) :
    List String :=
  match findResourceByTag existing item.name with
  | none => []
  | some r => [r.logicalResourceId]

/-- Applying one recorded construct mutation to the stack's resource list:
the resource at the mutated logical id receives the new properties, every
other resource is left unchanged. -/
def applyTgwMutation (resources : List CfnResource) (m : String × TgwCfnProps) :
    List CfnResource :=
  resources.map (fun r =>
    if r.logicalResourceId == m.1 then { r with properties := m.2 } else r)

/-- Applying all recorded construct mutations in order. -/
def applyTgwMutations (resources : List CfnResource)
    (ms : List (String × TgwCfnProps)) : List CfnResource :=
  ms.foldl applyTgwMutation resources

/-! ### `stack-utils.ts`: stage selection -/

/-- The slice of `AcceleratorContext` that `includeStage` and
`importAseaResourceStacks` read: an optional stage, account and region. -/
structure AcceleratorContext where
  stage : Option String
  account : Option String
  region : Option String
deriving DecidableEq, Repr

/-- The stack descriptor argument of `includeStage`:
`{ stage: string; account?: string; region?: string }`. -/
structure IncludeStageProps where
  stage : String
  account : Option String
  region : Option String
deriving DecidableEq, Repr

/-- Modelled from the spec: `AcceleratorStage.PIPELINE` (the
`accelerator-stage.ts` enum is not under `src/`); `includeStage` itself
hardcodes the same string. -/
def stagePipeline : String := "pipeline"

/-- Modelled from the spec: `AcceleratorStage.TESTER_PIPELINE`. -/
def stageTesterPipeline : String := "tester-pipeline"

/-- Modelled from the spec: `AcceleratorStage.IMPORT_ASEA_RESOURCES`. -/
def stageImportAseaResources : String := "import-asea-resources"

/-- Modelled from the spec: `AcceleratorStage.POST_IMPORT_ASEA_RESOURCES`. -/
def stagePostImportAseaResources : String := "post-import-asea-resources"

/-- `includeStage` of `stack-utils.ts` (lines 198-218): with no context stage,
exclude only the pipeline and tester-pipeline stacks; with a context stage, the
stack is included when the stages agree and either the context names no account
and no region, or the stack's account and region equal the context's. -/
def includeStage (context : AcceleratorContext) (props : IncludeStageProps) : Bool :=
  if context.stage.isNone then
    if [stagePipeline, stageTesterPipeline].contains props.stage then false
    else true
  else
    if context.stage == some props.stage then
      if context.account.isNone && context.region.isNone then true
      else if props.account == context.account && props.region == context.region then true
      else false
    else false

/-! ### `stack-utils.ts`: tag propagation (`addAcceleratorTags`) -/

/-- A node of the CDK construct tree: an identifier, optionally the
CloudFormation resource type when the construct is a `CfnResource`
(an L1 construct class corresponds one-to-one to its `cfnResourceType`,
so `instanceof cdk.aws_ec2.CfnTransitGateway` is type equality with
`AWS::EC2::TransitGateway`), and child constructs. -/
inductive ConstructTree where
  | node (id : String) (cfnResourceType : Option String) (children : List ConstructTree)

/-- `node.node.findAll()`: the construct itself and all of its descendants. -/
def ConstructTree.findAll : ConstructTree → List ConstructTree
  | .node i t children =>
    .node i t children :: (children.attach.map (fun c => c.1.findAll)).flatten
termination_by t => sizeOf t
decreasing_by
  simp only [ConstructTree.node.sizeOf_spec]
  have := List.sizeOf_lt_of_mem c.2
  omega

/-- A tag from the global configuration (`globalConfig.tags` element). -/
structure TagConfig where
  key : String
  value : String
deriving DecidableEq, Repr

/-- The slice of `GlobalConfig` read by `addAcceleratorTags` and
`importAseaResourceStacks`. -/
structure ExternalLandingZoneResourcesConfig where
  importExternalLandingZoneResources : Bool
  templateMap : Option (List AseaStackInfo)
  acceleratorPrefix : Option String
deriving DecidableEq, Repr

/-- The slice of the global configuration the embedded functions read:
optional tags (for `addAcceleratorTags`) and the optional ASEA import
block (for `importAseaResourceStacks`). -/
structure GlobalConfigModel where
  tags : Option (List TagConfig)
  externalLandingZoneResources : Option ExternalLandingZoneResourcesConfig
deriving DecidableEq, Repr

/-- `excludeResourceTypes` of `addAcceleratorTags`: resource types that do not
support tag updates. -/
def excludeResourceTypes : List String :=
  ["AWS::EC2::TransitGatewayRouteTable",
   "AWS::Route53Resolver::FirewallDomainList",
   "AWS::Route53Resolver::ResolverEndpoint",
   "AWS::Route53Resolver::ResolverRule"]

/-- A recorded tag application (`new cdk.Tag(key, value).visit(resource)`):
the visited construct and the key/value pair. -/
structure TagApplication where
  target : ConstructTree
  key : String
  value : String

/-- The tags `addAcceleratorTags` applies to one construct of the tree
(lines 174-187 of `stack-utils.ts`): nothing unless the node is a
`CfnResource` outside `excludeResourceTypes`; transit gateways are skipped
outside the `aws` partition; otherwise the two accelerator tags followed by
the global configuration tags. -/
def tagsForNode (partition : String) (globalConfig : GlobalConfigModel)
    (acceleratorPrefix : String) (resource : ConstructTree) : List TagApplication :=
  match resource with
  | .node _ cfnType _ =>
    match cfnType with
    | none => []
    | some t =>
      if excludeResourceTypes.contains t then []
      else if t == RESOURCE_TYPE_TRANSIT_GATEWAY && partition != "aws" then []
      else
        [⟨resource, "Accel-P", acceleratorPrefix⟩, ⟨resource, "Accelerator", acceleratorPrefix⟩] ++
          (globalConfig.tags.getD []).map (fun tg => ⟨resource, tg.key, tg.value⟩)

/-- `addAcceleratorTags` of `stack-utils.ts` (lines 160-189): walk
`node.node.findAll()` and apply `tagsForNode` at every construct. -/
def addAcceleratorTags (node : ConstructTree) (partition : String)
    (globalConfig : GlobalConfigModel) (acceleratorPrefix : String) :
    List TagApplication :=
  node.findAll.flatMap (tagsForNode partition globalConfig acceleratorPrefix)

/-! ### `stack-utils.ts`: ASEA resource stack import -/

/-- One instantiated `ImportAseaResourcesStack`: its name, the stack entry it
was created for, the nested stacks passed as children, and the stage the
constructor received (`rootContext.stage!`). -/
structure CreatedImportStack where
  stackName : String
  stackInfo : AseaStackInfo
  nestedStacks : List AseaStackInfo
  stage : Option String
deriving DecidableEq, Repr

/-- The outcome of `importAseaResourceStacks`: an early `return` (undefined),
a thrown configuration error, or the instantiated import stacks together with
the per-phase warnings. -/
inductive ImportOutcome where
  | skipped
  | configError (msg : String)
  | imported (created : List CreatedImportStack) (warnings : List String)
deriving DecidableEq, Repr

/-- The phase loop bounds of `importAseaResourceStacks`
(`for (const phase of [-1, 0, 1, 2, 3, 4, 5])`). -/
def aseaPhases : List Int := [-1, 0, 1, 2, 3, 4, 5]

/-- The phase group filter of `importAseaResourceStacks` (lines 1022-1024):
the template-map entries for the requested account, region and phase. -/
def aseaStacksForPhase (aseaStackMap : List AseaStackInfo)
    (accountId enabledRegion : String) (phase : Int) : List AseaStackInfo :=
  aseaStackMap.filter (fun stack =>
    stack.accountId == accountId && stack.region == enabledRegion && stack.phase == phase)

/-- The warning logged for a phase with no matching stacks (line 1026). -/
def noAseaStackWarning (accountId enabledRegion : String) (phase : Int) : String :=
  "No ASEA stack found for account " ++ accountId ++ " in region " ++ enabledRegion ++
    " for " ++ toString phase

/-- The `ImportAseaResourcesStack` instantiations of one phase group
(lines 1036-1055): one stack per non-nested entry, receiving as
`nestedStacks` the nested entries of the group with the same account and
region. -/
def importStacksOfPhaseGroup (rootContext : AcceleratorContext)
    (aseaStacks : List AseaStackInfo) : List CreatedImportStack :=
  (aseaStacks.filter (fun stack => !stack.nestedStack)).map (fun aseaStack =>
    { stackName := aseaStack.stackName
      stackInfo := aseaStack
      nestedStacks := aseaStacks.filter (fun stack =>
        stack.nestedStack && stack.accountId == aseaStack.accountId &&
          stack.region == aseaStack.region)
      stage := rootContext.stage })

/-- `importAseaResourceStacks` of `stack-utils.ts` (lines 971-1058): return
early unless one of the two import stages is selected for the account/region
and external landing zone resource import is enabled; throw when the template
map or the accelerator prefix is missing; otherwise instantiate the import
stacks phase by phase, warning on empty phases. -/
def importAseaResourceStacks (rootContext : AcceleratorContext)
    (globalConfig : GlobalConfigModel) (accountId enabledRegion : String) :
    ImportOutcome :=
  if (!includeStage rootContext
        { stage := stageImportAseaResources
          account := some accountId, region := some enabledRegion } &&
      !includeStage rootContext
        { stage := stagePostImportAseaResources
          account := some accountId, region := some enabledRegion }) ||
     !((globalConfig.externalLandingZoneResources.map
         (fun e => e.importExternalLandingZoneResources)).getD false) then
    ImportOutcome.skipped
  else
    match (globalConfig.externalLandingZoneResources.map (fun e => e.templateMap)).getD none with
    | none => ImportOutcome.configError "Configuration validation failed at runtime."
    | some aseaStackMap =>
      match (globalConfig.externalLandingZoneResources.map
          (fun e => e.acceleratorPrefix)).getD none with
      | none => ImportOutcome.configError "Configuration validation failed at runtime."
      | some _ =>
        ImportOutcome.imported
          (aseaPhases.flatMap (fun phase =>
            let aseaStacks := aseaStacksForPhase aseaStackMap accountId enabledRegion phase
            if aseaStacks.isEmpty then []
            else importStacksOfPhaseGroup rootContext aseaStacks))
          (aseaPhases.filterMap (fun phase =>
            if (aseaStacksForPhase aseaStackMap accountId enabledRegion phase).isEmpty then
              some (noAseaStackWarning accountId enabledRegion phase)
            else none))

/-! ### `stack-utils.ts`: network VPC stage and custom stack dependencies -/

/-- Modelled from the spec: `AcceleratorStage.NETWORK_VPC`. -/
def stageNetworkVpc : String := "network-vpc"

/-- Names identifying the three stacks `createNetworkVpcStacks` instantiates;
the constructs are identified by the stage their names are derived from. -/
def networkVpcStackKey : String := "NetworkVpcStack"

/-- The VPC endpoints stack of the Network VPC stage. -/
def networkVpcEndpointsStackKey : String := "NetworkVpcEndpointsStack"

/-- The VPC DNS stack of the Network VPC stage. -/
def networkVpcDnsStackKey : String := "NetworkVpcDnsStack"

/-- What `createNetworkVpcStacks` (lines 804-863) builds when the stage is
included: the three stacks in creation order and the `addDependency` edges
(dependent stack, dependency). Outside the stage nothing is created. -/
def createNetworkVpcStacks (context : AcceleratorContext)
    (accountId enabledRegion : String) : List String × List (String × String) :=
  if includeStage context
      { stage := stageNetworkVpc, account := some accountId, region := some enabledRegion } then
    ([networkVpcStackKey, networkVpcEndpointsStackKey, networkVpcDnsStackKey],
     [(networkVpcEndpointsStackKey, networkVpcStackKey),
      (networkVpcDnsStackKey, networkVpcEndpointsStackKey)])
  else ([], [])

/-- The slice of a custom stack's configuration read by the dependency wiring:
its name and its optional `dependsOn` list. -/
structure CustomStackConfig where
  name : String
  dependsOn : Option (List String)
deriving DecidableEq, Repr

/-- A `customStackMapping` entry: the stack configuration and the mutable
`stackObj` slot, `none` until `createCustomStacks` instantiates the stack
(the instantiated stack is identified by its configuration name). -/
structure CustomStackMapping where
  stackConfig : CustomStackConfig
  stackObj : Option String
deriving DecidableEq, Repr

/-- `addCustomStackDependencies` of `stack-utils.ts` (lines 1127-1138): for
every name in the stack's `dependsOn` list, find the first mapping with that
configuration name; when it exists and its `stackObj` is set, that stack is
added as a dependency. Returns the dependencies added. -/
def addCustomStackDependencies (stack : CustomStackMapping)
    (customStackList : List CustomStackMapping) : List String :=
  (stack.stackConfig.dependsOn.getD []).filterMap (fun stackName =>
    (customStackList.find? (fun a => a.stackConfig.name == stackName)).bind
      (fun a => a.stackObj))

/-- The loop of `createCustomStacks` (lines 1101-1117) as it affects
dependency wiring: mappings are instantiated in list order (setting
`stackObj`), and `addCustomStackDependencies` for each stack runs against the
list in its state at that moment — earlier entries instantiated, later ones
not yet. Returns the final mapping list and the `addDependency` edges
(dependent stack name, dependency stack name). -/
def createCustomStacksGo (done todo : List CustomStackMapping)
    (acc : List (String × String)) :
    List CustomStackMapping × List (String × String) :=
  match todo with
  | [] => (done, acc)
  | cur :: rest =>
    let cur2 : CustomStackMapping := { cur with stackObj := some cur.stackConfig.name }
    let current := done ++ cur2 :: rest
    let deps := (addCustomStackDependencies cur2 current).map
      (fun d => (cur.stackConfig.name, d))
    createCustomStacksGo (done ++ [cur2]) rest (acc ++ deps)

/-- `createCustomStacks` dependency wiring over a generated custom stack
list whose `stackObj` slots start unset. -/
def createCustomStacks (customStackList : List CustomStackMapping) :
    List CustomStackMapping × List (String × String) :=
  createCustomStacksGo [] customStackList []

/-- The CloudFormation resource type of a construct tree node, `none` when the
construct is not a `CfnResource`. -/
def ConstructTree.cfnType : ConstructTree → Option String
  | .node _ t _ => t

/-! ### Concrete example data used to instantiate the theorems -/

/-- A transit gateway construct with no properties set. -/
def exNoProps : TgwCfnProps := ⟨none, none, none, none, none, none⟩

/-- An existing transit gateway resource tagged `Name = Main`. -/
def exTgwA : CfnResource :=
  ⟨"TgwA", "tgw-123", "AWS::EC2::TransitGateway", [("Name", "Main")], exNoProps⟩

/-- An existing transit gateway resource tagged `Name = Other`, matched by no
configuration item. -/
def exTgwB : CfnResource :=
  ⟨"TgwB", "tgw-456", "AWS::EC2::TransitGateway", [("Name", "Other")], exNoProps⟩

/-- An existing non-transit-gateway resource. -/
def exBucket : CfnResource :=
  ⟨"Bkt", "bucket-1", "AWS::S3::Bucket", [("Name", "Main")], exNoProps⟩

/-- A phase-0 ASEA stack holding the three example resources. -/
def exStack0 : AseaStackInfo :=
  ⟨"111111111111", "us-east-1", 0, "ASEA-Phase0", false, [exTgwA, exTgwB, exBucket]⟩

/-- A phase-1 ASEA stack. -/
def exStack1 : AseaStackInfo :=
  ⟨"111111111111", "us-east-1", 1, "ASEA-Phase1", false, []⟩

/-- A nested phase-0 ASEA stack. -/
def exNested0 : AseaStackInfo :=
  ⟨"111111111111", "us-east-1", 0, "ASEA-Phase0-Nested", true, []⟩

/-- A declared transit gateway named `Main`, matching `exTgwA`. -/
def exItemMain : TransitGatewayConfig :=
  ⟨"Main", 65000, "enable", "enable", "disable", "enable", "enable"⟩

/-- A declared transit gateway named `Ghost`, matching no existing resource. -/
def exItemGhost : TransitGatewayConfig :=
  ⟨"Ghost", 65100, "disable", "enable", "enable", "disable", "disable"⟩

/-- The example network configuration: one matched and one unmatched item. -/
def exNetworkConfig : NetworkConfig := ⟨some [exItemMain, exItemGhost]⟩

/-- An import-stage context for the example account and region. -/
def exImportContext : AcceleratorContext :=
  ⟨some stageImportAseaResources, some "111111111111", some "us-east-1"⟩

/-- A global configuration whose ASEA import block is fully populated. -/
def exGlobalConfigFull : GlobalConfigModel :=
  ⟨some [⟨"CostCenter", "123"⟩], some ⟨true, some [exStack0, exStack1, exNested0], some "ASEA"⟩⟩

/-- A global configuration whose ASEA import block lacks the template map. -/
def exGlobalConfigNoMap : GlobalConfigModel :=
  ⟨none, some ⟨true, none, some "ASEA"⟩⟩

/-- A global configuration with external resource import disabled. -/
def exGlobalConfigDisabled : GlobalConfigModel :=
  ⟨none, some ⟨false, some [exStack0], some "ASEA"⟩⟩

/-- A bucket construct node. -/
def exBucketNode : ConstructTree := .node "Bucket" (some "AWS::S3::Bucket") []

/-- A transit gateway route table construct node, of a type that rejects tag
updates. -/
def exRouteTableNode : ConstructTree :=
  .node "TgwRt" (some "AWS::EC2::TransitGatewayRouteTable") []

/-- A construct tree: a stack root (not a `CfnResource`) with a bucket and a
transit gateway route table child. -/
def exTree : ConstructTree := .node "Stack" none [exBucketNode, exRouteTableNode]

/-- A construct tree consisting of a single transit gateway resource. -/
def exTgwTree : ConstructTree :=
  .node "Tgw" (some "AWS::EC2::TransitGateway") []

/-- A global configuration carrying one tag, for the tagging examples. -/
def exTagConfig : GlobalConfigModel := ⟨some [⟨"CostCenter", "123"⟩], none⟩

/-- A custom stack list in which the first stack depends on the second, still
uninstantiated at wiring time. -/
def exForwardList : List CustomStackMapping :=
  [⟨⟨"A", some ["B"]⟩, none⟩, ⟨⟨"B", none⟩, none⟩]

/-! ### Helper lemmas -/

/-- The configuration loop of `TransitGateways` decomposes into the
concatenation of the per-item effects; logs are untouched by the loop. -/
theorem tgwLoop_foldl_eq (ssmPrefix : String) (resources existing : List CfnResource)
    (items : List TransitGatewayConfig) (acc : TransitGatewaysResult) :
    items.foldl (tgwLoopStep ssmPrefix resources existing) acc =
      { mutations := acc.mutations ++ items.flatMap (tgwItemMutations existing)
        ssmParameters := acc.ssmParameters ++
          items.flatMap (tgwItemSsm ssmPrefix resources existing)
        aseaResources := acc.aseaResources ++ items.flatMap (tgwItemAsea existing)
        tgwInAsea := acc.tgwInAsea ++ items.flatMap (tgwItemIds existing)
        logs := acc.logs } := by
  induction items generalizing acc with
  | nil => simp
  | cons item rest ih =>
    simp only [List.foldl_cons, List.flatMap_cons, ih]
    unfold tgwLoopStep tgwItemMutations tgwItemSsm tgwItemAsea tgwItemIds
    cases findResourceByTag existing item.name <;> simp

/-- The `TransitGateways` run at phase 0, written with the per-item effect
functions. -/
theorem transitGatewaysRun_phase0 (stackInfo : AseaStackInfo)
    (networkConfig : NetworkConfig) (ssmPrefix : String)
    (h : stackInfo.phase = ASEA_PHASE_NUMBER) :
    transitGatewaysRun stackInfo networkConfig ssmPrefix =
      { mutations := (networkConfig.transitGateways.getD []).flatMap
          (tgwItemMutations
            (filterResourcesByType stackInfo.resources RESOURCE_TYPE_TRANSIT_GATEWAY))
        ssmParameters := (networkConfig.transitGateways.getD []).flatMap
          (tgwItemSsm ssmPrefix stackInfo.resources
            (filterResourcesByType stackInfo.resources RESOURCE_TYPE_TRANSIT_GATEWAY))
        aseaResources := (networkConfig.transitGateways.getD []).flatMap
          (tgwItemAsea
            (filterResourcesByType stackInfo.resources RESOURCE_TYPE_TRANSIT_GATEWAY))
        tgwInAsea := (networkConfig.transitGateways.getD []).flatMap
          (tgwItemIds
            (filterResourcesByType stackInfo.resources RESOURCE_TYPE_TRANSIT_GATEWAY))
        logs := ((filterResourcesByType stackInfo.resources
            RESOURCE_TYPE_TRANSIT_GATEWAY).filter (fun r =>
              !((networkConfig.transitGateways.getD []).flatMap
                (tgwItemIds (filterResourcesByType stackInfo.resources
                  RESOURCE_TYPE_TRANSIT_GATEWAY))).contains r.logicalResourceId)).map
          (fun r => (LogLevel.INFO,
            "TGW " ++ r.logicalResourceId ++ " is in ASEA Cfn but not found in configuration")) } := by
  unfold transitGatewaysRun
  simp only [h, ne_eq, not_true_eq_false, if_false, tgwLoop_foldl_eq]
  rfl

/-! ### Claim theorems -/

/-- C9: if the ASEA stack's phase is not 0, the `TransitGateways`
reconciliation performs no work: no construct mutation, no SSM parameter, no
ASEA mapping entry, no matched id — only an INFO log line. -/
theorem tgw_nonzero_phase_no_work (stackInfo : AseaStackInfo)
    (networkConfig : NetworkConfig) (ssmPrefix : String)
    (h : stackInfo.phase ≠ ASEA_PHASE_NUMBER) :
    transitGatewaysRun stackInfo networkConfig ssmPrefix =
      { mutations := [], ssmParameters := [], aseaResources := [], tgwInAsea := []
        logs := [(LogLevel.INFO,
          "No " ++ RESOURCE_TYPE_TRANSIT_GATEWAY ++ "s to handle in stack " ++
            stackInfo.stackName)] } := by
  unfold transitGatewaysRun
  simp [h, TransitGatewaysResult.empty]

/-- Witness for C9 at the phase-1 example stack. -/
theorem tgw_nonzero_phase_no_work_witness :
    transitGatewaysRun exStack1 exNetworkConfig "/accelerator" =
      { mutations := [], ssmParameters := [], aseaResources := [], tgwInAsea := []
        logs := [(LogLevel.INFO,
          "No " ++ RESOURCE_TYPE_TRANSIT_GATEWAY ++ "s to handle in stack " ++
            exStack1.stackName)] } :=
  tgw_nonzero_phase_no_work exStack1 exNetworkConfig "/accelerator" (by decide)

/-- A resource targeted by no recorded mutation survives `applyTgwMutations`
unchanged. -/
theorem mem_applyTgwMutations_of_ne (resources : List CfnResource)
    (ms : List (String × TgwCfnProps)) (r : CfnResource) (hr : r ∈ resources)
    (hne : ∀ m ∈ ms, m.1 ≠ r.logicalResourceId) :
    r ∈ applyTgwMutations resources ms := by
  induction ms generalizing resources with
  | nil => exact hr
  | cons m ms ih =>
    have hstep : r ∈ applyTgwMutation resources m := by
      have hfr : (fun x : CfnResource =>
          if x.logicalResourceId == m.1 then { x with properties := m.2 } else x) r = r := by
        have : (r.logicalResourceId == m.1) = false :=
          beq_eq_false_iff_ne.mpr (fun he => hne m (List.mem_cons_self m ms) he.symm)
        simp [this]
      unfold applyTgwMutation
      exact hfr ▸ List.mem_map_of_mem _ hr
    exact ih (applyTgwMutation resources m) hstep
      (fun x hx => hne x (List.mem_cons_of_mem m hx))

/-- C1: at phase 0, every declared transit gateway item matched to an existing
`AWS::EC2::TransitGateway` resource has its construct mutated to the six
declared values, an SSM parameter emitted whose value is the `ref` (physical
resource id) of that transit gateway, and an ASEA mapping entry recorded; an
item with no matching resource contributes no mutation, no SSM parameter and
no mapping entry — every recorded effect stems from a matched item of a
different name. -/
theorem tgw_reconciliation_effects (stackInfo : AseaStackInfo)
    (networkConfig : NetworkConfig) (ssmPrefix : String)
    (h : stackInfo.phase = ASEA_PHASE_NUMBER) :
    (∀ item ∈ networkConfig.transitGateways.getD [], ∀ r,
      findResourceByTag (filterResourcesByType stackInfo.resources
        RESOURCE_TYPE_TRANSIT_GATEWAY) item.name = some r →
      (r.logicalResourceId, tgwPropsOfConfig item) ∈
          (transitGatewaysRun stackInfo networkConfig ssmPrefix).mutations ∧
        mkTgwSsmParameter ssmPrefix item stackInfo.resources r ∈
          (transitGatewaysRun stackInfo networkConfig ssmPrefix).ssmParameters ∧
        (mkTgwSsmParameter ssmPrefix item stackInfo.resources r).stringValue =
          constructRef stackInfo.resources r.logicalResourceId ∧
        (aseaResourceTypeTransitGateway, item.name) ∈
          (transitGatewaysRun stackInfo networkConfig ssmPrefix).aseaResources) ∧
    (∀ item ∈ networkConfig.transitGateways.getD [],
      findResourceByTag (filterResourcesByType stackInfo.resources
        RESOURCE_TYPE_TRANSIT_GATEWAY) item.name = none →
      (∀ m ∈ (transitGatewaysRun stackInfo networkConfig ssmPrefix).mutations,
        ∃ item2 ∈ networkConfig.transitGateways.getD [], item2.name ≠ item.name ∧
          ∃ r2, findResourceByTag (filterResourcesByType stackInfo.resources
              RESOURCE_TYPE_TRANSIT_GATEWAY) item2.name = some r2 ∧
            m = (r2.logicalResourceId, tgwPropsOfConfig item2)) ∧
      (∀ s ∈ (transitGatewaysRun stackInfo networkConfig ssmPrefix).ssmParameters,
        ∃ item2 ∈ networkConfig.transitGateways.getD [], item2.name ≠ item.name ∧
          ∃ r2, findResourceByTag (filterResourcesByType stackInfo.resources
              RESOURCE_TYPE_TRANSIT_GATEWAY) item2.name = some r2 ∧
            s = mkTgwSsmParameter ssmPrefix item2 stackInfo.resources r2) ∧
      (∀ e ∈ (transitGatewaysRun stackInfo networkConfig ssmPrefix).aseaResources,
        ∃ item2 ∈ networkConfig.transitGateways.getD [], item2.name ≠ item.name ∧
          e = (aseaResourceTypeTransitGateway, item2.name))) := by
  rw [transitGatewaysRun_phase0 stackInfo networkConfig ssmPrefix h]
  constructor
  · intro item hitem r hfind
    refine ⟨?_, ?_, rfl, ?_⟩
    · exact List.mem_flatMap.mpr ⟨item, hitem, by simp [tgwItemMutations, hfind]⟩
    · exact List.mem_flatMap.mpr ⟨item, hitem, by simp [tgwItemSsm, hfind]⟩
    · exact List.mem_flatMap.mpr ⟨item, hitem, by simp [tgwItemAsea, hfind]⟩
  · intro item hitem hnone
    refine ⟨?_, ?_, ?_⟩
    · intro m hm
      obtain ⟨item2, hitem2, hmem⟩ := List.mem_flatMap.mp hm
      unfold tgwItemMutations at hmem
      cases hfind2 : findResourceByTag (filterResourcesByType stackInfo.resources
          RESOURCE_TYPE_TRANSIT_GATEWAY) item2.name with
      | none => rw [hfind2] at hmem; exact absurd hmem (List.not_mem_nil m)
      | some r2 =>
        rw [hfind2] at hmem
        refine ⟨item2, hitem2, ?_, r2, hfind2, List.mem_singleton.mp hmem⟩
        intro hname
        rw [hname, hnone] at hfind2
        exact Option.noConfusion hfind2
    · intro s hs
      obtain ⟨item2, hitem2, hmem⟩ := List.mem_flatMap.mp hs
      unfold tgwItemSsm at hmem
      cases hfind2 : findResourceByTag (filterResourcesByType stackInfo.resources
          RESOURCE_TYPE_TRANSIT_GATEWAY) item2.name with
      | none => rw [hfind2] at hmem; exact absurd hmem (List.not_mem_nil s)
      | some r2 =>
        rw [hfind2] at hmem
        refine ⟨item2, hitem2, ?_, r2, hfind2, List.mem_singleton.mp hmem⟩
        intro hname
        rw [hname, hnone] at hfind2
        exact Option.noConfusion hfind2
    · intro e he
      obtain ⟨item2, hitem2, hmem⟩ := List.mem_flatMap.mp he
      unfold tgwItemAsea at hmem
      cases hfind2 : findResourceByTag (filterResourcesByType stackInfo.resources
          RESOURCE_TYPE_TRANSIT_GATEWAY) item2.name with
      | none => rw [hfind2] at hmem; exact absurd hmem (List.not_mem_nil e)
      | some r2 =>
        rw [hfind2] at hmem
        refine ⟨item2, hitem2, ?_, List.mem_singleton.mp hmem⟩
        intro hname
        rw [hname, hnone] at hfind2
        exact Option.noConfusion hfind2

/-- Witness for C1: in the phase-0 example, the matched item `Main` mutates
`TgwA`, emits its SSM parameter valued at the physical id, and records the
mapping entry. -/
theorem tgw_reconciliation_effects_witness :
    (exTgwA.logicalResourceId, tgwPropsOfConfig exItemMain) ∈
      (transitGatewaysRun exStack0 exNetworkConfig "/accelerator").mutations ∧
    mkTgwSsmParameter "/accelerator" exItemMain exStack0.resources exTgwA ∈
      (transitGatewaysRun exStack0 exNetworkConfig "/accelerator").ssmParameters ∧
    (mkTgwSsmParameter "/accelerator" exItemMain exStack0.resources exTgwA).stringValue =
      constructRef exStack0.resources exTgwA.logicalResourceId ∧
    (aseaResourceTypeTransitGateway, exItemMain.name) ∈
      (transitGatewaysRun exStack0 exNetworkConfig "/accelerator").aseaResources :=
  (tgw_reconciliation_effects exStack0 exNetworkConfig "/accelerator" rfl).1
    exItemMain (by decide) exTgwA (by decide)

/-- C2: at phase 0, the matched ids and mutations decompose item by item, and
every declared item matches and mutates at most one existing resource and
records at most one logical resource id. -/
theorem tgw_at_most_one_match (stackInfo : AseaStackInfo)
    (networkConfig : NetworkConfig) (ssmPrefix : String)
    (h : stackInfo.phase = ASEA_PHASE_NUMBER) :
    (transitGatewaysRun stackInfo networkConfig ssmPrefix).tgwInAsea =
      (networkConfig.transitGateways.getD []).flatMap
        (tgwItemIds (filterResourcesByType stackInfo.resources
          RESOURCE_TYPE_TRANSIT_GATEWAY)) ∧
    (transitGatewaysRun stackInfo networkConfig ssmPrefix).mutations =
      (networkConfig.transitGateways.getD []).flatMap
        (tgwItemMutations (filterResourcesByType stackInfo.resources
          RESOURCE_TYPE_TRANSIT_GATEWAY)) ∧
    (∀ item : TransitGatewayConfig,
      (tgwItemIds (filterResourcesByType stackInfo.resources
        RESOURCE_TYPE_TRANSIT_GATEWAY) item).length ≤ 1 ∧
      (tgwItemMutations (filterResourcesByType stackInfo.resources
        RESOURCE_TYPE_TRANSIT_GATEWAY) item).length ≤ 1) := by
  rw [transitGatewaysRun_phase0 stackInfo networkConfig ssmPrefix h]
  refine ⟨rfl, rfl, ?_⟩
  intro item
  unfold tgwItemIds tgwItemMutations
  cases findResourceByTag (filterResourcesByType stackInfo.resources
    RESOURCE_TYPE_TRANSIT_GATEWAY) item.name <;> simp

/-- Witness for C2 at the phase-0 example. -/
theorem tgw_at_most_one_match_witness :
    (transitGatewaysRun exStack0 exNetworkConfig "/accelerator").tgwInAsea =
      (exNetworkConfig.transitGateways.getD []).flatMap
        (tgwItemIds (filterResourcesByType exStack0.resources
          RESOURCE_TYPE_TRANSIT_GATEWAY)) ∧
    (tgwItemIds (filterResourcesByType exStack0.resources
      RESOURCE_TYPE_TRANSIT_GATEWAY) exItemMain).length ≤ 1 ∧
    (tgwItemMutations (filterResourcesByType exStack0.resources
      RESOURCE_TYPE_TRANSIT_GATEWAY) exItemMain).length ≤ 1 :=
  ⟨(tgw_at_most_one_match exStack0 exNetworkConfig "/accelerator" rfl).1,
   ((tgw_at_most_one_match exStack0 exNetworkConfig "/accelerator" rfl).2.2 exItemMain).1,
   ((tgw_at_most_one_match exStack0 exNetworkConfig "/accelerator" rfl).2.2 exItemMain).2⟩

/-- C3: at phase 0, the matched ids are exactly those produced by looking up
each declared item's name with `findResourceByTag` among the stack's
`AWS::EC2::TransitGateway` resources; a returned resource belongs to that
filtered list, is of the transit gateway type, and carries a `Name` tag equal
to the declared name; and an item without such a match triggers no
reconciliation effect. -/
theorem tgw_match_by_name (stackInfo : AseaStackInfo)
    (networkConfig : NetworkConfig) (ssmPrefix : String)
    (h : stackInfo.phase = ASEA_PHASE_NUMBER) :
    (transitGatewaysRun stackInfo networkConfig ssmPrefix).tgwInAsea =
      (networkConfig.transitGateways.getD []).flatMap
        (tgwItemIds (filterResourcesByType stackInfo.resources
          RESOURCE_TYPE_TRANSIT_GATEWAY)) ∧
    (∀ name r, findResourceByTag (filterResourcesByType stackInfo.resources
        RESOURCE_TYPE_TRANSIT_GATEWAY) name = some r →
      r ∈ stackInfo.resources ∧ r.resourceType = RESOURCE_TYPE_TRANSIT_GATEWAY ∧
        ("Name", name) ∈ r.tags) ∧
    (∀ name, findResourceByTag (filterResourcesByType stackInfo.resources
        RESOURCE_TYPE_TRANSIT_GATEWAY) name = none →
      ∀ r ∈ filterResourcesByType stackInfo.resources RESOURCE_TYPE_TRANSIT_GATEWAY,
        ("Name", name) ∉ r.tags) ∧
    (∀ item ∈ networkConfig.transitGateways.getD [],
      findResourceByTag (filterResourcesByType stackInfo.resources
        RESOURCE_TYPE_TRANSIT_GATEWAY) item.name = none →
      tgwItemMutations (filterResourcesByType stackInfo.resources
          RESOURCE_TYPE_TRANSIT_GATEWAY) item = [] ∧
        tgwItemSsm ssmPrefix stackInfo.resources (filterResourcesByType stackInfo.resources
          RESOURCE_TYPE_TRANSIT_GATEWAY) item = [] ∧
        tgwItemAsea (filterResourcesByType stackInfo.resources
          RESOURCE_TYPE_TRANSIT_GATEWAY) item = [] ∧
        tgwItemIds (filterResourcesByType stackInfo.resources
          RESOURCE_TYPE_TRANSIT_GATEWAY) item = []) := by
  refine ⟨(transitGatewaysRun_phase0 stackInfo networkConfig ssmPrefix h) ▸ rfl, ?_, ?_, ?_⟩
  · intro name r hfind
    have hmem := List.mem_of_find?_eq_some hfind
    have hpred := List.find?_some hfind
    have hfilter := List.mem_filter.mp hmem
    refine ⟨hfilter.1, by simpa using hfilter.2, ?_⟩
    simpa using hpred
  · intro name hfind r hr
    have := List.find?_eq_none.mp hfind r hr
    simpa using this
  · intro item hitem hnone
    unfold tgwItemMutations tgwItemSsm tgwItemAsea tgwItemIds
    rw [hnone]
    exact ⟨rfl, rfl, rfl, rfl⟩

/-- Witness for C3 at the phase-0 example: the lookup of `Main` returns
`TgwA`, which carries the `Name` tag, and the unmatched `Ghost` item triggers
nothing. -/
theorem tgw_match_by_name_witness :
    (exTgwA ∈ exStack0.resources ∧
      exTgwA.resourceType = RESOURCE_TYPE_TRANSIT_GATEWAY ∧
      ("Name", exItemMain.name) ∈ exTgwA.tags) ∧
    (tgwItemMutations (filterResourcesByType exStack0.resources
        RESOURCE_TYPE_TRANSIT_GATEWAY) exItemGhost = [] ∧
      tgwItemSsm "/accelerator" exStack0.resources (filterResourcesByType exStack0.resources
        RESOURCE_TYPE_TRANSIT_GATEWAY) exItemGhost = [] ∧
      tgwItemAsea (filterResourcesByType exStack0.resources
        RESOURCE_TYPE_TRANSIT_GATEWAY) exItemGhost = [] ∧
      tgwItemIds (filterResourcesByType exStack0.resources
        RESOURCE_TYPE_TRANSIT_GATEWAY) exItemGhost = []) :=
  ⟨(tgw_match_by_name exStack0 exNetworkConfig "/accelerator" rfl).2.1
      exItemMain.name exTgwA (by decide),
   (tgw_match_by_name exStack0 exNetworkConfig "/accelerator" rfl).2.2.2
      exItemGhost (by decide) (by decide)⟩

/-- C4: at phase 0, every existing `AWS::EC2::TransitGateway` resource whose
logical id was matched by no declared item is flagged with an INFO log naming
it, is targeted by no mutation, survives the applied mutations unchanged (it
is neither mutated nor deleted), and every SSM parameter and mapping entry
stems from a match of a different resource. -/
theorem tgw_orphan_flagged_untouched (stackInfo : AseaStackInfo)
    (networkConfig : NetworkConfig) (ssmPrefix : String) (r : CfnResource)
    (h : stackInfo.phase = ASEA_PHASE_NUMBER)
    (hr : r ∈ filterResourcesByType stackInfo.resources RESOURCE_TYPE_TRANSIT_GATEWAY)
    (horphan : r.logicalResourceId ∉
      (transitGatewaysRun stackInfo networkConfig ssmPrefix).tgwInAsea) :
    ((LogLevel.INFO,
        "TGW " ++ r.logicalResourceId ++ " is in ASEA Cfn but not found in configuration") ∈
      (transitGatewaysRun stackInfo networkConfig ssmPrefix).logs) ∧
    (∀ m ∈ (transitGatewaysRun stackInfo networkConfig ssmPrefix).mutations,
      m.1 ≠ r.logicalResourceId) ∧
    (r ∈ applyTgwMutations stackInfo.resources
      (transitGatewaysRun stackInfo networkConfig ssmPrefix).mutations) ∧
    (∀ s ∈ (transitGatewaysRun stackInfo networkConfig ssmPrefix).ssmParameters,
      ∃ item ∈ networkConfig.transitGateways.getD [], ∃ r2,
        findResourceByTag (filterResourcesByType stackInfo.resources
          RESOURCE_TYPE_TRANSIT_GATEWAY) item.name = some r2 ∧
        r2.logicalResourceId ≠ r.logicalResourceId ∧
        s = mkTgwSsmParameter ssmPrefix item stackInfo.resources r2) ∧
    (∀ e ∈ (transitGatewaysRun stackInfo networkConfig ssmPrefix).aseaResources,
      ∃ item ∈ networkConfig.transitGateways.getD [], ∃ r2,
        findResourceByTag (filterResourcesByType stackInfo.resources
          RESOURCE_TYPE_TRANSIT_GATEWAY) item.name = some r2 ∧
        r2.logicalResourceId ≠ r.logicalResourceId ∧
        e = (aseaResourceTypeTransitGateway, item.name)) := by
  rw [transitGatewaysRun_phase0 stackInfo networkConfig ssmPrefix h] at horphan ⊢
  have hmut : ∀ m ∈ (networkConfig.transitGateways.getD []).flatMap
      (tgwItemMutations (filterResourcesByType stackInfo.resources
        RESOURCE_TYPE_TRANSIT_GATEWAY)), m.1 ≠ r.logicalResourceId := by
    intro m hm heq
    obtain ⟨item, hitem, hmem⟩ := List.mem_flatMap.mp hm
    unfold tgwItemMutations at hmem
    cases hfind : findResourceByTag (filterResourcesByType stackInfo.resources
        RESOURCE_TYPE_TRANSIT_GATEWAY) item.name with
    | none => rw [hfind] at hmem; exact absurd hmem (List.not_mem_nil m)
    | some r2 =>
      rw [hfind] at hmem
      apply horphan
      apply List.mem_flatMap.mpr
      refine ⟨item, hitem, ?_⟩
      unfold tgwItemIds
      rw [hfind]
      have hm1 : m.1 = r2.logicalResourceId := by
        rw [List.mem_singleton.mp hmem]
      simp [← heq, hm1]
  refine ⟨?_, hmut, ?_, ?_, ?_⟩
  · apply List.mem_map_of_mem
    apply List.mem_filter.mpr
    refine ⟨hr, ?_⟩
    simpa using horphan
  · exact mem_applyTgwMutations_of_ne stackInfo.resources _ r
      (List.mem_filter.mp hr).1 hmut
  · intro s hs
    obtain ⟨item, hitem, hmem⟩ := List.mem_flatMap.mp hs
    unfold tgwItemSsm at hmem
    cases hfind : findResourceByTag (filterResourcesByType stackInfo.resources
        RESOURCE_TYPE_TRANSIT_GATEWAY) item.name with
    | none => rw [hfind] at hmem; exact absurd hmem (List.not_mem_nil s)
    | some r2 =>
      rw [hfind] at hmem
      refine ⟨item, hitem, r2, hfind, ?_, List.mem_singleton.mp hmem⟩
      intro heq
      apply horphan
      apply List.mem_flatMap.mpr
      refine ⟨item, hitem, ?_⟩
      unfold tgwItemIds
      rw [hfind]
      simp [heq]
  · intro e he
    obtain ⟨item, hitem, hmem⟩ := List.mem_flatMap.mp he
    unfold tgwItemAsea at hmem
    cases hfind : findResourceByTag (filterResourcesByType stackInfo.resources
        RESOURCE_TYPE_TRANSIT_GATEWAY) item.name with
    | none => rw [hfind] at hmem; exact absurd hmem (List.not_mem_nil e)
    | some r2 =>
      rw [hfind] at hmem
      refine ⟨item, hitem, r2, hfind, ?_, List.mem_singleton.mp hmem⟩
      intro heq
      apply horphan
      apply List.mem_flatMap.mpr
      refine ⟨item, hitem, ?_⟩
      unfold tgwItemIds
      rw [hfind]
      simp [heq]

/-- Witness for C4: in the phase-0 example, the orphan `TgwB` is flagged in
the logs and survives the applied mutations untouched. -/
theorem tgw_orphan_flagged_untouched_witness :
    ((LogLevel.INFO,
        "TGW " ++ exTgwB.logicalResourceId ++ " is in ASEA Cfn but not found in configuration") ∈
      (transitGatewaysRun exStack0 exNetworkConfig "/accelerator").logs) ∧
    (exTgwB ∈ applyTgwMutations exStack0.resources
      (transitGatewaysRun exStack0 exNetworkConfig "/accelerator").mutations) :=
  ⟨(tgw_orphan_flagged_untouched exStack0 exNetworkConfig "/accelerator" exTgwB rfl
      (by decide) (by decide)).1,
   (tgw_orphan_flagged_untouched exStack0 exNetworkConfig "/accelerator" exTgwB rfl
      (by decide) (by decide)).2.2.1⟩

/-- C10: `includeStage` returns true exactly when either the context has no
stage and the stack's stage is neither `pipeline` nor `tester-pipeline`, or
the context's stage equals the stack's stage and either the context names
neither account nor region or the stack's account and region equal the
context's. -/
theorem includeStage_cases (context : AcceleratorContext) (props : IncludeStageProps) :
    includeStage context props = true ↔
      ((context.stage = none ∧
          ¬(props.stage = stagePipeline ∨ props.stage = stageTesterPipeline)) ∨
       (context.stage = some props.stage ∧
          ((context.account = none ∧ context.region = none) ∨
           (props.account = context.account ∧ props.region = context.region)))) := by
  rcases context with ⟨cstage, caccount, cregion⟩
  rcases props with ⟨pstage, paccount, pregion⟩
  unfold includeStage
  cases cstage with
  | none =>
    by_cases hp : pstage = stagePipeline ∨ pstage = stageTesterPipeline <;>
      simp_all [List.contains]
  | some s =>
    by_cases hs : s = pstage
    · subst hs
      by_cases ha : caccount = none <;> by_cases hr : cregion = none <;>
        by_cases hpa : paccount = caccount <;> by_cases hpr : pregion = cregion <;>
          simp_all
    · simp_all [Ne.symm hs]

/-- `findAll` of a node is the node followed by the walks of its children. -/
theorem ConstructTree.findAll_node (i : String) (t : Option String)
    (children : List ConstructTree) :
    (ConstructTree.node i t children).findAll =
      ConstructTree.node i t children :: (children.map ConstructTree.findAll).flatten := by
  rw [ConstructTree.findAll]
  congr 1
  rw [show (fun c : {x // x ∈ children} => c.1.findAll) =
        ConstructTree.findAll ∘ Subtype.val from rfl,
    ← List.map_map, List.attach_map_subtype_val]

/-- Unfolding equation of `tagsForNode` on a resource node. -/
theorem tagsForNode_node_some (partition : String) (cfg : GlobalConfigModel)
    (pre i ty : String) (kids : List ConstructTree) :
    tagsForNode partition cfg pre (ConstructTree.node i (some ty) kids) =
      (if excludeResourceTypes.contains ty then []
       else if ty == RESOURCE_TYPE_TRANSIT_GATEWAY && partition != "aws" then []
       else
         [TagApplication.mk (ConstructTree.node i (some ty) kids) "Accel-P" pre,
          TagApplication.mk (ConstructTree.node i (some ty) kids) "Accelerator" pre] ++
           (cfg.tags.getD []).map (fun tg =>
             TagApplication.mk (ConstructTree.node i (some ty) kids) tg.key tg.value)) := rfl

/-- Unfolding equation of `tagsForNode` on a non-resource node. -/
theorem tagsForNode_node_none (partition : String) (cfg : GlobalConfigModel)
    (pre i : String) (kids : List ConstructTree) :
    tagsForNode partition cfg pre (ConstructTree.node i none kids) = [] := rfl

/-- Every tag application produced for a construct targets that construct. -/
theorem tagsForNode_target (partition : String) (cfg : GlobalConfigModel)
    (pre : String) (n : ConstructTree) (ta : TagApplication)
    (hta : ta ∈ tagsForNode partition cfg pre n) : ta.target = n := by
  rcases n with ⟨i, t, kids⟩
  cases t with
  | none =>
    rw [tagsForNode_node_none] at hta
    exact absurd hta (List.not_mem_nil ta)
  | some ty =>
    rw [tagsForNode_node_some] at hta
    by_cases h1 : excludeResourceTypes.contains ty = true
    · rw [if_pos h1] at hta
      exact absurd hta (List.not_mem_nil ta)
    · rw [if_neg h1] at hta
      by_cases h2 : (ty == RESOURCE_TYPE_TRANSIT_GATEWAY && partition != "aws") = true
      · rw [if_pos h2] at hta
        exact absurd hta (List.not_mem_nil ta)
      · rw [if_neg h2] at hta
        rcases List.mem_append.mp hta with hm | hm
        · rcases List.mem_cons.mp hm with h | h3
          · rw [h]
          · rw [List.mem_singleton.mp h3]
        · obtain ⟨tg, htg, h⟩ := List.mem_map.mp hm
          rw [← h]

/-- A construct of an excluded type, a transit gateway outside the `aws`
partition, or a non-resource construct produces no tag application. -/
theorem tagsForNode_excluded (partition : String) (cfg : GlobalConfigModel)
    (pre : String) (n : ConstructTree)
    (hex : n.cfnType = none ∨ ∃ t, n.cfnType = some t ∧
      (excludeResourceTypes.contains t = true ∨
        (t = RESOURCE_TYPE_TRANSIT_GATEWAY ∧ partition ≠ "aws"))) :
    tagsForNode partition cfg pre n = [] := by
  rcases n with ⟨i, t, kids⟩
  rcases hex with hnone | ⟨ty, hsome, hcase⟩
  · have ht : t = none := hnone
    subst ht
    rw [tagsForNode_node_none]
  · have ht : t = some ty := hsome
    subst ht
    rw [tagsForNode_node_some]
    rcases hcase with hcontains | ⟨hty, hpart⟩
    · rw [if_pos hcontains]
    · have hcnd : (ty == RESOURCE_TYPE_TRANSIT_GATEWAY && partition != "aws") = true := by
        simp only [Bool.and_eq_true, beq_iff_eq, bne_iff_ne]
        exact ⟨hty, hpart⟩
      have hnc : ¬(excludeResourceTypes.contains ty = true) := by
        rw [hty]; decide
      rw [if_neg hnc, if_pos hcnd]

/-- C5 (amended): the tag walker applies the `Accel-P` and `Accelerator`
tags with the accelerator prefix as value, plus every global configuration
tag, to every `CfnResource` found in the construct tree — except constructs
of the four types that reject tag updates, and except transit gateways when
the partition is not `aws`, which receive no tags at all. -/
theorem addAcceleratorTags_characterization (tree : ConstructTree)
    (partition : String) (cfg : GlobalConfigModel) (pre : String)
    (n : ConstructTree) (hn : n ∈ tree.findAll) :
    (∀ t, n.cfnType = some t →
      excludeResourceTypes.contains t = false →
      ¬(t = RESOURCE_TYPE_TRANSIT_GATEWAY ∧ partition ≠ "aws") →
      (TagApplication.mk n "Accel-P" pre ∈ addAcceleratorTags tree partition cfg pre ∧
       TagApplication.mk n "Accelerator" pre ∈ addAcceleratorTags tree partition cfg pre ∧
       ∀ tg ∈ cfg.tags.getD [],
         TagApplication.mk n tg.key tg.value ∈ addAcceleratorTags tree partition cfg pre)) ∧
    ((n.cfnType = none ∨ ∃ t, n.cfnType = some t ∧
        (excludeResourceTypes.contains t = true ∨
          (t = RESOURCE_TYPE_TRANSIT_GATEWAY ∧ partition ≠ "aws"))) →
      ∀ ta ∈ addAcceleratorTags tree partition cfg pre, ta.target ≠ n) := by
  constructor
  · intro t hsome hnex habs
    have hcond : (t == RESOURCE_TYPE_TRANSIT_GATEWAY && partition != "aws") = false := by
      rw [Bool.and_eq_false_iff]
      by_cases ht : t = RESOURCE_TYPE_TRANSIT_GATEWAY
      · right
        have : partition = "aws" := by
          by_contra hp
          exact habs ⟨ht, hp⟩
        simp [this]
      · left
        simp [ht]
    rcases n with ⟨i, ty, kids⟩
    have hty : ty = some t := hsome
    subst hty
    have htags : tagsForNode partition cfg pre (ConstructTree.node i (some t) kids) =
        [TagApplication.mk (ConstructTree.node i (some t) kids) "Accel-P" pre,
         TagApplication.mk (ConstructTree.node i (some t) kids) "Accelerator" pre] ++
          (cfg.tags.getD []).map (fun tg =>
            TagApplication.mk (ConstructTree.node i (some t) kids) tg.key tg.value) := by
      rw [tagsForNode_node_some, if_neg (by simpa using hnex), if_neg (by simp [hcond])]
    refine ⟨?_, ?_, ?_⟩
    · exact List.mem_flatMap.mpr ⟨_, hn, by rw [htags]; simp⟩
    · exact List.mem_flatMap.mpr ⟨_, hn, by rw [htags]; simp⟩
    · intro tg htg
      refine List.mem_flatMap.mpr ⟨_, hn, ?_⟩
      rw [htags]
      simp only [List.cons_append, List.nil_append, List.mem_cons, List.mem_map]
      exact Or.inr (Or.inr ⟨tg, htg, rfl⟩)
  · intro hex ta hta heq
    obtain ⟨n2, hn2, hmem⟩ := List.mem_flatMap.mp hta
    have htarget := tagsForNode_target partition cfg pre n2 ta hmem
    have hn2n : n2 = n := by rw [← htarget, heq]
    rw [hn2n, tagsForNode_excluded partition cfg pre n hex] at hmem
    exact absurd hmem (List.not_mem_nil ta)

/-- Witness for C5 (amended): in the example tree under the `aws` partition,
the bucket resource receives both accelerator tags and the global tag, and
the transit gateway route table (an excluded type) receives none. -/
theorem addAcceleratorTags_characterization_witness :
    (TagApplication.mk exBucketNode "Accel-P" "AWSAccelerator" ∈
        addAcceleratorTags exTree "aws" exTagConfig "AWSAccelerator" ∧
      TagApplication.mk exBucketNode "Accelerator" "AWSAccelerator" ∈
        addAcceleratorTags exTree "aws" exTagConfig "AWSAccelerator" ∧
      ∀ tg ∈ exTagConfig.tags.getD [],
        TagApplication.mk exBucketNode tg.key tg.value ∈
          addAcceleratorTags exTree "aws" exTagConfig "AWSAccelerator") ∧
    (∀ ta ∈ addAcceleratorTags exTree "aws" exTagConfig "AWSAccelerator",
      ta.target ≠ exRouteTableNode) :=
  ⟨(addAcceleratorTags_characterization exTree "aws" exTagConfig "AWSAccelerator"
      exBucketNode (by simp [exTree, exBucketNode, exRouteTableNode,
        ConstructTree.findAll_node])).1
      "AWS::S3::Bucket" rfl (by decide) (by intro hc; exact absurd hc.1 (by decide)),
   (addAcceleratorTags_characterization exTree "aws" exTagConfig "AWSAccelerator"
      exRouteTableNode (by simp [exTree, exBucketNode, exRouteTableNode,
        ConstructTree.findAll_node])).2
      (Or.inr ⟨"AWS::EC2::TransitGatewayRouteTable", rfl, Or.inl (by decide)⟩)⟩

/-- Counterexample to C5 as stated: a transit gateway is not among the four
excluded types, yet outside the `aws` partition it receives no tags at all —
`addAcceleratorTags` on a tree holding one transit gateway resource applies
nothing. -/
theorem addAcceleratorTags_tgw_partition_counterexample :
    addAcceleratorTags exTgwTree "aws-us-gov" exTagConfig "AWSAccelerator" = [] ∧
    exTgwTree.cfnType = some RESOURCE_TYPE_TRANSIT_GATEWAY ∧
    excludeResourceTypes.contains RESOURCE_TYPE_TRANSIT_GATEWAY = false := by
  refine ⟨?_, rfl, by decide⟩
  simp [addAcceleratorTags, exTgwTree, ConstructTree.findAll_node, tagsForNode,
    excludeResourceTypes, RESOURCE_TYPE_TRANSIT_GATEWAY, exTagConfig]

/-- C6: when the guards pass, `importAseaResourceStacks` returns the imported
stacks: every instantiated stack stems from a non-nested template-map entry of
the requested account and region with a phase among `-1..5`, carries the
nested stacks of its phase group as children; every such non-nested entry is
instantiated; and exactly the phases whose group is empty produce a skip
warning. -/
theorem importAseaResourceStacks_processes (rootContext : AcceleratorContext)
    (globalConfig : GlobalConfigModel) (accountId enabledRegion : String)
    (elzr : ExternalLandingZoneResourcesConfig) (m : List AseaStackInfo) (pre : String)
    (hsel : includeStage rootContext
        { stage := stageImportAseaResources
          account := some accountId, region := some enabledRegion } = true ∨
      includeStage rootContext
        { stage := stagePostImportAseaResources
          account := some accountId, region := some enabledRegion } = true)
    (helzr : globalConfig.externalLandingZoneResources = some elzr)
    (hen : elzr.importExternalLandingZoneResources = true)
    (hmap : elzr.templateMap = some m)
    (hpre : elzr.acceleratorPrefix = some pre) :
    ∃ created warnings,
      importAseaResourceStacks rootContext globalConfig accountId enabledRegion =
        ImportOutcome.imported created warnings ∧
      (∀ c ∈ created,
        c.stackInfo ∈ m ∧ c.stackInfo.accountId = accountId ∧
        c.stackInfo.region = enabledRegion ∧ c.stackInfo.phase ∈ aseaPhases ∧
        c.stackInfo.nestedStack = false ∧ c.stackName = c.stackInfo.stackName ∧
        c.stage = rootContext.stage ∧
        (∀ s ∈ m, s.accountId = accountId → s.region = enabledRegion →
          s.phase = c.stackInfo.phase → s.nestedStack = true → s ∈ c.nestedStacks) ∧
        (∀ s ∈ c.nestedStacks, s.nestedStack = true ∧ s ∈ m ∧
          s.accountId = accountId ∧ s.region = enabledRegion ∧
          s.phase = c.stackInfo.phase)) ∧
      (∀ s ∈ m, s.accountId = accountId → s.region = enabledRegion →
        s.phase ∈ aseaPhases → s.nestedStack = false →
        ∃ c ∈ created, c.stackInfo = s) ∧
      (∀ phase ∈ aseaPhases,
        aseaStacksForPhase m accountId enabledRegion phase = [] →
        noAseaStackWarning accountId enabledRegion phase ∈ warnings) ∧
      (∀ w ∈ warnings, ∃ phase ∈ aseaPhases,
        aseaStacksForPhase m accountId enabledRegion phase = [] ∧
        w = noAseaStackWarning accountId enabledRegion phase) := by
  have hcondition : ((!includeStage rootContext
        { stage := stageImportAseaResources
          account := some accountId, region := some enabledRegion } &&
      !includeStage rootContext
        { stage := stagePostImportAseaResources
          account := some accountId, region := some enabledRegion }) ||
     !((globalConfig.externalLandingZoneResources.map
         (fun e => e.importExternalLandingZoneResources)).getD false)) = false := by
    rw [Bool.or_eq_false_iff, Bool.and_eq_false_iff]
    constructor
    · rcases hsel with h | h
      · left; rw [h]; rfl
      · right; rw [h]; rfl
    · rw [helzr]
      simp [hen]
  have hmap2 : (globalConfig.externalLandingZoneResources.map
      (fun e => e.templateMap)).getD none = some m := by
    rw [helzr]
    simpa using hmap
  have hpre2 : (globalConfig.externalLandingZoneResources.map
      (fun e => e.acceleratorPrefix)).getD none = some pre := by
    rw [helzr]
    simpa using hpre
  unfold importAseaResourceStacks
  rw [if_neg (by simp [hcondition]), hmap2, hpre2]
  refine ⟨_, _, rfl, ?_, ?_, ?_, ?_⟩
  · intro c hc
    obtain ⟨phase, hphase, hcmem⟩ := List.mem_flatMap.mp hc
    by_cases hempty : (aseaStacksForPhase m accountId enabledRegion phase).isEmpty = true
    · rw [if_pos hempty] at hcmem
      exact absurd hcmem (List.not_mem_nil c)
    · rw [if_neg hempty] at hcmem
      obtain ⟨s, hs, hceq⟩ := List.mem_map.mp hcmem
      have hsfil := List.mem_filter.mp hs
      have hsgrp := List.mem_filter.mp hsfil.1
      have hflags : s.accountId = accountId ∧ s.region = enabledRegion ∧ s.phase = phase := by
        have := hsgrp.2
        simp only [Bool.and_eq_true, beq_iff_eq] at this
        exact ⟨this.1.1, this.1.2, this.2⟩
      have hnotnested : s.nestedStack = false := by
        have := hsfil.2
        simp only [Bool.not_eq_true] at this  -- this : !s.nestedStack = true
        simpa using this
      subst hceq
      refine ⟨hsgrp.1, hflags.1, hflags.2.1, hflags.2.2 ▸ hphase, hnotnested, rfl, rfl, ?_, ?_⟩
      · intro s2 hs2 ha2 hr2 hp2 hn2
        apply List.mem_filter.mpr
        constructor
        · apply List.mem_filter.mpr
          refine ⟨hs2, ?_⟩
          simp only [Bool.and_eq_true, beq_iff_eq]
          exact ⟨⟨ha2, hr2⟩, by rw [hp2]; exact hflags.2.2⟩
        · simp only [Bool.and_eq_true, beq_iff_eq]
          exact ⟨⟨hn2, by rw [ha2, hflags.1]⟩, by rw [hr2, hflags.2.1]⟩
      · intro s2 hs2
        have hs2fil := List.mem_filter.mp hs2
        have hs2grp := List.mem_filter.mp hs2fil.1
        have hs2flags : s2.accountId = accountId ∧ s2.region = enabledRegion ∧
            s2.phase = phase := by
          have := hs2grp.2
          simp only [Bool.and_eq_true, beq_iff_eq] at this
          exact ⟨this.1.1, this.1.2, this.2⟩
        have hs2nested : s2.nestedStack = true := by
          have := hs2fil.2
          simp only [Bool.and_eq_true] at this
          exact this.1.1
        exact ⟨hs2nested, hs2grp.1, hs2flags.1, hs2flags.2.1,
          by rw [hs2flags.2.2, hflags.2.2]⟩
  · intro s hs ha hr hp hn
    refine ⟨{ stackName := s.stackName, stackInfo := s
              nestedStacks := (aseaStacksForPhase m accountId enabledRegion s.phase).filter
                (fun stack => stack.nestedStack && stack.accountId == s.accountId &&
                  stack.region == s.region)
              stage := rootContext.stage }, ?_, rfl⟩
    apply List.mem_flatMap.mpr
    refine ⟨s.phase, hp, ?_⟩
    have hsgrp : s ∈ aseaStacksForPhase m accountId enabledRegion s.phase := by
      apply List.mem_filter.mpr
      refine ⟨hs, ?_⟩
      simp [ha, hr]
    have hempty : (aseaStacksForPhase m accountId enabledRegion s.phase).isEmpty = false := by
      rcases hgrp : aseaStacksForPhase m accountId enabledRegion s.phase with _ | ⟨x, xs⟩
      · rw [hgrp] at hsgrp
        exact absurd hsgrp (List.not_mem_nil s)
      · rfl
    rw [if_neg (by simp [hempty])]
    apply List.mem_map.mpr
    refine ⟨s, ?_, rfl⟩
    apply List.mem_filter.mpr
    exact ⟨hsgrp, by simp [hn]⟩
  · intro phase hphase hempty
    apply List.mem_filterMap.mpr
    refine ⟨phase, hphase, ?_⟩
    rw [hempty]
    rfl
  · intro w hw
    obtain ⟨phase, hphase, heq⟩ := List.mem_filterMap.mp hw
    by_cases hempty : (aseaStacksForPhase m accountId enabledRegion phase).isEmpty = true
    · rw [if_pos hempty] at heq
      refine ⟨phase, hphase, List.isEmpty_iff.mp hempty, ?_⟩
      exact (Option.some_inj.mp heq).symm
    · rw [if_neg hempty] at heq
      exact absurd heq (Option.noConfusion)

/-- Witness for C6: the example import context and fully populated global
configuration yield an imported outcome whose sole created stack is the
non-nested phase-0 stack. -/
theorem importAseaResourceStacks_processes_witness :
    ∃ c, (∃ created warnings,
      importAseaResourceStacks exImportContext exGlobalConfigFull
        "111111111111" "us-east-1" = ImportOutcome.imported created warnings ∧
      c ∈ created ∧ c.stackInfo = exStack0) := by
  obtain ⟨created, warnings, heq, hall, hexists, hwarn, hwarn2⟩ :=
    importAseaResourceStacks_processes exImportContext exGlobalConfigFull
      "111111111111" "us-east-1" ⟨true, some [exStack0, exStack1, exNested0], some "ASEA"⟩
      [exStack0, exStack1, exNested0] "ASEA"
      (Or.inl (by decide)) rfl rfl rfl rfl
  obtain ⟨c, hc, hcs⟩ := hexists exStack0 (by decide) rfl rfl (by decide) rfl
  exact ⟨c, created, warnings, heq, hc, hcs⟩

/-- C8: with an import stage selected and external import enabled, a missing
template map or accelerator prefix makes `importAseaResourceStacks` throw the
runtime configuration validation error (so no import stack is instantiated);
with neither import stage selected, or import disabled, it returns without
creating anything. -/
theorem importAseaResourceStacks_guards (rootContext : AcceleratorContext)
    (globalConfig : GlobalConfigModel) (accountId enabledRegion : String) :
    ((includeStage rootContext
        { stage := stageImportAseaResources
          account := some accountId, region := some enabledRegion } = true ∨
      includeStage rootContext
        { stage := stagePostImportAseaResources
          account := some accountId, region := some enabledRegion } = true) →
      (globalConfig.externalLandingZoneResources.map
        (fun e => e.importExternalLandingZoneResources)).getD false = true →
      ((globalConfig.externalLandingZoneResources.map
          (fun e => e.templateMap)).getD none = none ∨
        (globalConfig.externalLandingZoneResources.map
          (fun e => e.acceleratorPrefix)).getD none = none) →
      importAseaResourceStacks rootContext globalConfig accountId enabledRegion =
        ImportOutcome.configError "Configuration validation failed at runtime.") ∧
    (((includeStage rootContext
        { stage := stageImportAseaResources
          account := some accountId, region := some enabledRegion } = false ∧
      includeStage rootContext
        { stage := stagePostImportAseaResources
          account := some accountId, region := some enabledRegion } = false) ∨
      (globalConfig.externalLandingZoneResources.map
        (fun e => e.importExternalLandingZoneResources)).getD false = false) →
      importAseaResourceStacks rootContext globalConfig accountId enabledRegion =
        ImportOutcome.skipped) := by
  constructor
  · intro hsel hen hmiss
    have hcondition : ((!includeStage rootContext
          { stage := stageImportAseaResources
            account := some accountId, region := some enabledRegion } &&
        !includeStage rootContext
          { stage := stagePostImportAseaResources
            account := some accountId, region := some enabledRegion }) ||
       !((globalConfig.externalLandingZoneResources.map
           (fun e => e.importExternalLandingZoneResources)).getD false)) = false := by
      rw [Bool.or_eq_false_iff, Bool.and_eq_false_iff]
      refine ⟨?_, by rw [hen]; rfl⟩
      rcases hsel with h | h
      · left; rw [h]; rfl
      · right; rw [h]; rfl
    unfold importAseaResourceStacks
    rw [if_neg (by simp [hcondition])]
    rcases hmiss with hm | hp
    · rw [hm]
    · cases hmv : (globalConfig.externalLandingZoneResources.map
          (fun e => e.templateMap)).getD none with
      | none => rfl
      | some aseaStackMap =>
        rw [hp]
  · intro hskip
    have hcondition : ((!includeStage rootContext
          { stage := stageImportAseaResources
            account := some accountId, region := some enabledRegion } &&
        !includeStage rootContext
          { stage := stagePostImportAseaResources
            account := some accountId, region := some enabledRegion }) ||
       !((globalConfig.externalLandingZoneResources.map
           (fun e => e.importExternalLandingZoneResources)).getD false)) = true := by
      rcases hskip with ⟨h1, h2⟩ | hdis
      · rw [Bool.or_eq_true]
        left
        rw [Bool.and_eq_true, h1, h2]
        exact ⟨rfl, rfl⟩
      · rw [Bool.or_eq_true]
        right
        rw [hdis]
        rfl
    unfold importAseaResourceStacks
    rw [if_pos (by simp [hcondition])]

/-- Witness for C8: a populated import context with a missing template map
throws the configuration error, and a disabled import flag skips. -/
theorem importAseaResourceStacks_guards_witness :
    importAseaResourceStacks exImportContext exGlobalConfigNoMap
      "111111111111" "us-east-1" =
      ImportOutcome.configError "Configuration validation failed at runtime." ∧
    importAseaResourceStacks exImportContext exGlobalConfigDisabled
      "111111111111" "us-east-1" = ImportOutcome.skipped :=
  ⟨(importAseaResourceStacks_guards exImportContext exGlobalConfigNoMap
      "111111111111" "us-east-1").1 (Or.inl (by decide)) (by decide) (Or.inl (by decide)),
   (importAseaResourceStacks_guards exImportContext exGlobalConfigDisabled
      "111111111111" "us-east-1").2 (Or.inr (by decide))⟩

/-- C7 (amended): when the Network VPC stage is included, the endpoints stack
is made dependent on the VPC stack and the DNS stack on the endpoints stack;
and a stack named in a custom stack's `dependsOn` list is added as a
dependency whenever its entry found in the custom stack list has an
instantiated stack object at wiring time. -/
theorem stack_dependency_wiring :
    (∀ (context : AcceleratorContext) (accountId enabledRegion : String),
      includeStage context
        { stage := stageNetworkVpc
          account := some accountId, region := some enabledRegion } = true →
      createNetworkVpcStacks context accountId enabledRegion =
        ([networkVpcStackKey, networkVpcEndpointsStackKey, networkVpcDnsStackKey],
         [(networkVpcEndpointsStackKey, networkVpcStackKey),
          (networkVpcDnsStackKey, networkVpcEndpointsStackKey)])) ∧
    (∀ (stack : CustomStackMapping) (customStackList : List CustomStackMapping)
        (stackName s : String) (found : CustomStackMapping),
      stackName ∈ stack.stackConfig.dependsOn.getD [] →
      customStackList.find? (fun a => a.stackConfig.name == stackName) = some found →
      found.stackObj = some s →
      s ∈ addCustomStackDependencies stack customStackList) := by
  constructor
  · intro context accountId enabledRegion h
    unfold createNetworkVpcStacks
    rw [if_pos h]
  · intro stack customStackList stackName s found hmem hfind hobj
    unfold addCustomStackDependencies
    apply List.mem_filterMap.mpr
    refine ⟨stackName, hmem, ?_⟩
    rw [hfind]
    simpa using hobj

/-- Witness for C7 (amended): a network-vpc context wires the two network
dependencies, and a custom stack depending on an already instantiated stack
`B` receives `B` as a dependency. -/
theorem stack_dependency_wiring_witness :
    createNetworkVpcStacks
        ⟨some stageNetworkVpc, some "222222222222", some "eu-west-1"⟩
        "222222222222" "eu-west-1" =
      ([networkVpcStackKey, networkVpcEndpointsStackKey, networkVpcDnsStackKey],
       [(networkVpcEndpointsStackKey, networkVpcStackKey),
        (networkVpcDnsStackKey, networkVpcEndpointsStackKey)]) ∧
    "B" ∈ addCustomStackDependencies ⟨⟨"A", some ["B"]⟩, some "A"⟩
      [⟨⟨"B", none⟩, some "B"⟩, ⟨⟨"A", some ["B"]⟩, some "A"⟩] :=
  ⟨stack_dependency_wiring.1
      ⟨some stageNetworkVpc, some "222222222222", some "eu-west-1"⟩
      "222222222222" "eu-west-1" (by decide),
   stack_dependency_wiring.2 ⟨⟨"A", some ["B"]⟩, some "A"⟩
      [⟨⟨"B", none⟩, some "B"⟩, ⟨⟨"A", some ["B"]⟩, some "A"⟩]
      "B" "B" ⟨⟨"B", none⟩, some "B"⟩ (by decide) (by decide) rfl⟩

/-- Counterexample to C7 as stated: in a custom stack list where stack `A`
depends on stack `B` and `B` appears later in the list, `B` exists in the
generated custom stack list, yet the wiring of `createCustomStacks` adds no
dependency at all — `B` was not yet instantiated when `A` was wired. -/
theorem custom_dependency_counterexample :
    (createCustomStacks exForwardList).2 = [] ∧
    "B" ∈ ((exForwardList.headD ⟨⟨"", none⟩, none⟩).stackConfig.dependsOn.getD []) ∧
    (exForwardList.map (fun m2 => m2.stackConfig.name)).contains "B" = true := by
  decide

end LZA
